import Mathlib

/-!
Shallow embedding of the Sysco product scraper (modular pipeline under
`src/scraper/`).  Python strings are modelled as `List Char`; stateful
browser interactions are modelled by passing explicit outcome values
(queries that may raise, miss, or return text); Python exceptions are
modelled with `Except`.  Every definition is translated from the source
file and function named in its doc comment.
-/

namespace Sysco

/-! ## Python string primitives -/

/-- Characters matched by Python's `\s` / stripped by `str.strip()`
(ASCII range): space, tab, newline, carriage return, vertical tab,
form feed. -/
def isPySpace (c : Char) : Bool :=
  c = ' ' || c = '\t' || c = '\n' || c = '\r' ||
  c = Char.ofNat 11 || c = Char.ofNat 12

/-- `str.lstrip()`: drop leading whitespace. -/
def pyLStrip (s : List Char) : List Char := s.dropWhile isPySpace

/-- `str.rstrip()`: drop trailing whitespace. -/
def pyRStrip (s : List Char) : List Char := (s.reverse.dropWhile isPySpace).reverse

/-- `str.strip()`: drop leading and trailing whitespace. -/
def pyStrip (s : List Char) : List Char := pyRStrip (pyLStrip s)

/-- Helper for `collapseWS`: `prevSpace` records whether the previous
character belonged to a whitespace run already replaced by `' '`. -/
def collapseWSAux : Bool → List Char → List Char
  | _, [] => []
  | prevSpace, c :: rest =>
    if isPySpace c then
      if prevSpace then collapseWSAux true rest
      else ' ' :: collapseWSAux true rest
    else c :: collapseWSAux false rest

/-- `re.sub(r'\s+', ' ', text)`: each maximal whitespace run becomes a
single space. -/
def collapseWS (s : List Char) : List Char := collapseWSAux false s

/-! ## DataFormatter (src/scraper/data_formatter.py) -/

/-- The bullet glyphs removed by `_clean_raw_text`
(`re.sub(r'[•·▪▫◦‣⁃]\s*', '', text)`). -/
def isBulletCh (c : Char) : Bool :=
  c = '•' || c = '·' || c = '▪' || c = '▫' || c = '◦' || c = '‣' || c = '⁃'

/-- Helper for `removeBullets`: `afterBullet` is true while consuming
the whitespace run that immediately follows a bullet glyph. -/
def removeBulletsAux : Bool → List Char → List Char
  | _, [] => []
  | afterBullet, c :: rest =>
    if isBulletCh c then removeBulletsAux true rest
    else if afterBullet && isPySpace c then removeBulletsAux true rest
    else c :: removeBulletsAux false rest

/-- `re.sub(r'[•·▪▫◦‣⁃]\s*', '', text)`: every bullet glyph together
with the whitespace run following it is deleted. -/
def removeBullets (s : List Char) : List Char := removeBulletsAux false s

/-- Helper for `collapseRuns`: `inRun` is true while inside a run of the
delimiter character whose first occurrence was already emitted. -/
def collapseRunsAux (d : Char) : Bool → List Char → List Char
  | _, [] => []
  | inRun, c :: rest =>
    if c = d then
      if inRun then collapseRunsAux d true rest
      else c :: collapseRunsAux d true rest
    else c :: collapseRunsAux d false rest

/-- `re.sub(r'[.]{2,}', '.', text)` (resp. for `-`): a run of two or
more `d` collapses to a single `d`; single occurrences are unchanged,
so every maximal run becomes one character. -/
def collapseRuns (d : Char) (s : List Char) : List Char := collapseRunsAux d false s

/-- The punctuation class `[,.!?;:]` of `_clean_raw_text`. -/
def isPunctCh (c : Char) : Bool :=
  c = ',' || c = '.' || c = '!' || c = '?' || c = ';' || c = ':'

/-- Helper for `fixSpaceBefore`: `pending` holds (reversed) the
whitespace run read so far but not yet emitted. -/
def fixSpaceBeforeAux (pending : List Char) : List Char → List Char
  | [] => pending.reverse
  | c :: rest =>
    if isPySpace c then fixSpaceBeforeAux (c :: pending) rest
    else if isPunctCh c then c :: fixSpaceBeforeAux [] rest
    else pending.reverse ++ c :: fixSpaceBeforeAux [] rest

/-- `re.sub(r'\s+([,.!?;:])', r'\1', text)`: a whitespace run
immediately preceding a punctuation character is deleted. -/
def fixSpaceBefore (s : List Char) : List Char := fixSpaceBeforeAux [] s

/-- `re.sub(r'([,.!?;:])\s+', r'\1 ', text)`: a whitespace run
immediately following a punctuation character becomes one space. -/
def fixSpaceAfter (s : List Char) : List Char :=
  match s with
  | [] => []
  | c :: rest =>
    if isPunctCh c then
      if rest.takeWhile isPySpace = [] then c :: fixSpaceAfter rest
      else c :: ' ' :: fixSpaceAfter (rest.dropWhile isPySpace)
    else c :: fixSpaceAfter rest
termination_by s.length
decreasing_by
  · simp only [List.length_cons]
    exact Nat.lt_succ_of_le (Nat.le_refl _)
  · simp only [List.length_cons]
    exact Nat.lt_succ_of_le (List.dropWhile_suffix _).sublist.length_le
  · simp only [List.length_cons]
    exact Nat.lt_succ_of_le (Nat.le_refl _)

/-- `DataFormatter._clean_raw_text`: the six regex passes then `strip`. -/
def clean_raw_text (text : List Char) : List Char :=
  pyStrip (fixSpaceAfter (fixSpaceBefore
    (collapseRuns '-' (collapseRuns '.' (removeBullets (collapseWS text))))))

/-- Sentence terminators of `re.split(r'[.!?]+', text)`. -/
def isTerminalCh (c : Char) : Bool := c = '.' || c = '!' || c = '?'

/-- Split at every single terminator character (`acc` holds the current
piece, reversed).  Splitting at single terminators instead of maximal
`[.!?]+` runs only introduces extra empty pieces, which the very next
`filter` in `splitSentences` discards, so the composition agrees with
the Python `re.split` + filter. -/
def splitTermAux (acc : List Char) : List Char → List (List Char)
  | [] => [acc.reverse]
  | c :: rest =>
    if isTerminalCh c then acc.reverse :: splitTermAux [] rest
    else splitTermAux (c :: acc) rest

/-- `re.split(r'[.!?]+', text)` followed by
`[s.strip() for s in sentences if s.strip()]`. -/
def splitSentences (text : List Char) : List (List Char) :=
  ((splitTermAux [] text).map pyStrip).filter (fun s => !s.isEmpty)

/-- The four section labels of `_organize_into_sections`. -/
inductive SectionKey where
  | PRODUCT
  | SPECIFICATIONS
  | FEATURES
  | COOKING_INSTRUCTIONS
deriving DecidableEq

/-- The four accumulating buckets of `_organize_into_sections`. -/
structure Sections where
  PRODUCT : List Char
  SPECIFICATIONS : List Char
  FEATURES : List Char
  COOKING_INSTRUCTIONS : List Char
deriving DecidableEq

/-- Keyword list of the `COOKING_INSTRUCTIONS` branch. -/
def cookingKeywords : List (List Char) :=
  ["cook", "bake", "fry", "grill", "heat", "temperature",
   "oven", "microwave", "preparation", "serve"].map String.toList

/-- Keyword list of the `SPECIFICATIONS` branch. -/
def specKeywords : List (List Char) :=
  ["weight", "size", "count", "piece", "lb", "oz", "gram",
   "dimension", "pack", "case", "unit"].map String.toList

/-- Keyword list of the `FEATURES` branch. -/
def featureKeywords : List (List Char) :=
  ["feature", "benefit", "quality", "fresh", "premium",
   "natural", "organic", "grade", "cut", "style"].map String.toList

/-- `sentence.lower()` (ASCII case folding, as the keywords are ASCII). -/
def toLowerStr (s : List Char) : List Char := s.map Char.toLower

/-- Python substring test `needle in hay`: `needle` is a prefix of some
suffix of `hay`. -/
def isSubstr (needle : List Char) : List Char → Bool
  | [] => needle.isEmpty
  | c :: rest => needle.isPrefixOf (c :: rest) || isSubstr needle rest

/-- `any(keyword in sentence_lower for keyword in kws)`. -/
def hasAnyKeyword (kws : List (List Char)) (sentenceLower : List Char) : Bool :=
  kws.any (fun kw => isSubstr kw sentenceLower)

/-- The `if/elif/elif/else` keyword cascade of `_organize_into_sections`:
cooking first, then specifications, then features, default product. -/
def classifySentence (sentence : List Char) : SectionKey :=
  let lower := toLowerStr sentence
  if hasAnyKeyword cookingKeywords lower then .COOKING_INSTRUCTIONS
  else if hasAnyKeyword specKeywords lower then .SPECIFICATIONS
  else if hasAnyKeyword featureKeywords lower then .FEATURES
  else .PRODUCT

/-- `sections[key] += sentence + '. '`. -/
def addToSection (s : Sections) (k : SectionKey) (sentence : List Char) : Sections :=
  match k with
  | .PRODUCT => { s with PRODUCT := s.PRODUCT ++ sentence ++ ". ".toList }
  | .SPECIFICATIONS => { s with SPECIFICATIONS := s.SPECIFICATIONS ++ sentence ++ ". ".toList }
  | .FEATURES => { s with FEATURES := s.FEATURES ++ sentence ++ ". ".toList }
  | .COOKING_INSTRUCTIONS =>
    { s with COOKING_INSTRUCTIONS := s.COOKING_INSTRUCTIONS ++ sentence ++ ". ".toList }

/-- `DataFormatter._organize_into_sections`: split into sentences,
classify each into one bucket, append `sentence + '. '`, then strip
every bucket. -/
def organize_into_sections (text : List Char) : Sections :=
  let filled := (splitSentences text).foldl
    (fun acc sent => addToSection acc (classifySentence sent) sent)
    ⟨[], [], [], []⟩
  ⟨pyStrip filled.PRODUCT, pyStrip filled.SPECIFICATIONS,
   pyStrip filled.FEATURES, pyStrip filled.COOKING_INSTRUCTIONS⟩

/-- Index of the last `'.'` in the list (`str.rfind('.')`; `none` for
Python's `-1`). -/
def rfindDot : List Char → Option Nat
  | [] => none
  | c :: rest =>
    match rfindDot rest with
    | some i => some (i + 1)
    | none => if c = '.' then some 0 else none

/-- `DataFormatter._limit_section_length`.  The float comparison
`last_period > max_length * 0.7` is modelled exactly over the rationals
as `10 * last_period > 7 * max_length`; `rfind` returning `-1` is the
`none` arm (in Python `-1 > max_length * 0.7` is false, taking the
hard-truncation branch). -/
def limit_section_length (text : List Char) (maxLength : Nat) : List Char :=
  if text.length ≤ maxLength then text
  else
    match rfindDot (text.take maxLength) with
    | some lastPeriod =>
      if 10 * lastPeriod > 7 * maxLength then text.take (lastPeriod + 1)
      else pyRStrip (text.take maxLength) ++ ['.', '.', '.']
    | none => pyRStrip (text.take maxLength) ++ ['.', '.', '.']

/-- `section_order` with the printed labels of `section_labels`. -/
def sectionLabel : SectionKey → List Char
  | .PRODUCT => "PRODUCT".toList
  | .SPECIFICATIONS => "SPECIFICATIONS".toList
  | .FEATURES => "FEATURES".toList
  | .COOKING_INSTRUCTIONS => "COOKING INSTRUCTIONS".toList

/-- Bucket lookup `sections.get(section_key, '')`. -/
def sectionContent (s : Sections) : SectionKey → List Char
  | .PRODUCT => s.PRODUCT
  | .SPECIFICATIONS => s.SPECIFICATIONS
  | .FEATURES => s.FEATURES
  | .COOKING_INSTRUCTIONS => s.COOKING_INSTRUCTIONS

/-- `section_order = ['PRODUCT', 'SPECIFICATIONS', 'FEATURES',
'COOKING_INSTRUCTIONS']`. -/
def sectionOrder : List SectionKey :=
  [.PRODUCT, .SPECIFICATIONS, .FEATURES, .COOKING_INSTRUCTIONS]

/-- `content = sections.get(section_key, '').strip()` is non-empty. -/
def section_nonempty (s : Sections) (k : SectionKey) : Bool :=
  !(pyStrip (sectionContent s k)).isEmpty

/-- One entry of `formatted_parts`:
`f"{label}: {self._limit_section_length(content, 200)}"`. -/
def section_part (s : Sections) (k : SectionKey) : List Char :=
  sectionLabel k ++ ": ".toList ++
    limit_section_length (pyStrip (sectionContent s k)) 200

/-- The `formatted_parts` list built by `_format_sections`. -/
def formattedParts (s : Sections) : List (List Char) :=
  sectionOrder.filterMap
    (fun k => if section_nonempty s k then some (section_part s k) else none)

/-- `' | '.join(parts)`. -/
def joinParts : List (List Char) → List Char
  | [] => []
  | [p] => p
  | p :: q :: rest => p ++ " | ".toList ++ joinParts (q :: rest)

/-- `DataFormatter._format_sections`:
`' | '.join(formatted_parts) if formatted_parts else sections.get('PRODUCT', '')`. -/
def format_sections (s : Sections) : List Char :=
  let parts := formattedParts s
  if parts.isEmpty then s.PRODUCT else joinParts parts

/-- `DataFormatter.format_description`: empty input short-circuits to
`""`; otherwise clean, organize, format. -/
def format_description (raw : List Char) : List Char :=
  if (pyStrip raw).isEmpty then []
  else format_sections (organize_into_sections (clean_raw_text raw))

/-- Digits of `\d` (ASCII). -/
def isDigitCh (c : Char) : Bool := c.isDigit

/-- The character class `[\d,]`. -/
def isDigitOrComma (c : Char) : Bool := c.isDigit || c = ','

/-- Match of `r'\$[\d,]+\.?\d*'` anchored at the head of `s`, if any:
`'$'`, a maximal non-empty run of digits/commas, then optionally a
`'.'` and a maximal run of digits. -/
def priceTokenAt (s : List Char) : Option (List Char) :=
  match s with
  | '$' :: c :: rest =>
    if isDigitOrComma c then
      let run := (c :: rest).takeWhile isDigitOrComma
      let after := (c :: rest).dropWhile isDigitOrComma
      match after with
      | '.' :: rest2 => some ('$' :: run ++ '.' :: rest2.takeWhile isDigitCh)
      | _ => some ('$' :: run)
    else none
  | _ => none

/-- `re.search(r'\$[\d,]+\.?\d*', s)`: the leftmost match. -/
def searchPriceToken : List Char → Option (List Char)
  | [] => none
  | c :: rest =>
    match priceTokenAt (c :: rest) with
    | some tok => some tok
    | none => searchPriceToken rest

/-- `DataFormatter.clean_price`: empty input yields `""`; otherwise
strip + collapse whitespace, return the first currency token if the
regex matches, else the cleaned string itself. -/
def clean_price (s : List Char) : List Char :=
  if s.isEmpty then []
  else
    let cleaned := collapseWS (pyStrip s)
    match searchPriceToken cleaned with
    | some tok => tok
    | none => cleaned

/-- Allow-list of `re.sub(r'[^\w\s\-.,!?()&/$€£¥°À-ÖØ-öø-ÿ]', '', text)`:
word characters (ASCII letters, digits, `_`), whitespace, the listed
punctuation/currency symbols, and the Latin-1 accented ranges. -/
def isAllowedCh (c : Char) : Bool :=
  c.isAlphanum || c = '_' || isPySpace c || c = '-' || c = '.' || c = ',' ||
  c = '!' || c = '?' || c = '(' || c = ')' || c = '&' || c = '/' || c = '$' ||
  c = '€' || c = '£' || c = '¥' || c = '°' ||
  (0xC0 ≤ c.toNat && c.toNat ≤ 0xD6) ||
  (0xD8 ≤ c.toNat && c.toNat ≤ 0xF6) ||
  (0xF8 ≤ c.toNat && c.toNat ≤ 0xFF)

/-- `DataFormatter.clean_text_field`: empty input yields `""`;
otherwise strip + collapse whitespace, then drop disallowed characters. -/
def clean_text_field (s : List Char) : List Char :=
  if s.isEmpty then []
  else (collapseWS (pyStrip s)).filter isAllowedCh

/-! ## Data model (src/scraper/models.py) -/

/-- `ProductData` dataclass: all nine string fields default to `""`;
the three performance flags default as in the source. -/
structure ProductData where
  url : List Char := []
  brand : List Char := []
  product_name : List Char := []
  packaging : List Char := []
  sku : List Char := []
  image_url : List Char := []
  description : List Char := []
  price : List Char := []
  category : List Char := []
  enable_resource_blocking : Bool := true
  enable_async_scraping : Bool := false
  enable_performance_monitoring : Bool := true
deriving DecidableEq

/-- `ProductData.is_valid`: `bool(url) and bool(product_name or brand
or sku)` — a Python string is truthy iff non-empty. -/
def ProductData.is_valid (p : ProductData) : Bool :=
  !p.url.isEmpty && (!p.product_name.isEmpty || !p.brand.isEmpty || !p.sku.isEmpty)

/-- `ProductData.to_dict`: key/value pairs in the source's literal order. -/
def ProductData.to_dict (p : ProductData) : List (List Char × List Char) :=
  [("url".toList, p.url), ("brand".toList, p.brand),
   ("product_name".toList, p.product_name), ("packaging".toList, p.packaging),
   ("sku".toList, p.sku), ("image_url".toList, p.image_url),
   ("description".toList, p.description), ("price".toList, p.price),
   ("category".toList, p.category)]

/-- `ScrapingConfig` dataclass with the source's defaults (the string
and path fields not consulted by any claim's code path are kept as
plain data). -/
structure ScrapingConfig where
  zip_code : List Char := "97035".toList
  headless : Bool := false
  categories_to_scrape : List (List Char) :=
    ["Meat & Seafood", "Dairy & Eggs", "Canned & Dry"].map String.toList
  max_products : Nat := 10
  output_dir : List Char := "output".toList
  output_file : List Char := "sysco_products.csv".toList
  page_load_timeout : Nat := 30000
  element_timeout : Nat := 10000
  enable_resource_blocking : Bool := true
  enable_async_scraping : Bool := false
  enable_performance_monitoring : Bool := true
  async_batch_size : Nat := 3
deriving DecidableEq

/-! ## Selector resolution (src/scraper/extractors/product_extractor.py)

A `query_selector` call inside a field's `try` block either raises, finds
no element, or finds an element whose `inner_text()` (or attribute) is
the given text. -/

inductive QueryOutcome where
  | raised
  | missing
  | found (text : List Char)
deriving DecidableEq

/-- The per-field selector loop of `extract_brand` / `extract_product_name`
/ `extract_sku` / `extract_price`: the enclosing `try` makes a raised
query abort the whole loop and return `""`; an element whose raw text is
non-empty after `strip` short-circuits the loop with the cleaned text;
otherwise the next selector is consulted; exhaustion yields `""`. -/
def resolve_text_chain : List QueryOutcome → List Char
  | [] => []
  | .raised :: _ => []
  | .missing :: rest => resolve_text_chain rest
  | .found t :: rest =>
    if (pyStrip t).isEmpty then resolve_text_chain rest
    else clean_text_field t

/-- The selector loop of `extract_image_url`: same shape, but the
success value is `img_src.strip()` rather than `clean_text_field`. -/
def resolve_attr_chain : List QueryOutcome → List Char
  | [] => []
  | .raised :: _ => []
  | .missing :: rest => resolve_attr_chain rest
  | .found t :: rest =>
    if (pyStrip t).isEmpty then resolve_attr_chain rest
    else pyStrip t

/-- Number of selectors the loop consults before stopping (it stops at
a raised query or at the first non-empty text). -/
def consulted_count : List QueryOutcome → Nat
  | [] => 0
  | .raised :: _ => 1
  | .missing :: rest => 1 + consulted_count rest
  | .found t :: rest =>
    if (pyStrip t).isEmpty then 1 + consulted_count rest else 1

/-- Whether the loop's `except` branch fires: a query raises before any
selector has produced non-empty text. -/
def chain_raises : List QueryOutcome → Bool
  | [] => false
  | .raised :: _ => true
  | .missing :: rest => chain_raises rest
  | .found t :: rest =>
    if (pyStrip t).isEmpty then chain_raises rest else false

/-- A selector outcome succeeded: an element was found and its raw text
is non-empty after `strip` (`if brand_text and brand_text.strip():`). -/
def query_success : QueryOutcome → Bool
  | .found t => !(pyStrip t).isEmpty
  | _ => false

/-- `extract_packaging`: a single selector, no emptiness check — the
found text is cleaned and returned as is. -/
def extract_packaging (o : QueryOutcome) : List Char :=
  match o with
  | .raised => []
  | .missing => []
  | .found t => clean_text_field t

/-- Inputs of `extract_description`: the Read More button query, the
expanded-container query after clicking, and the default-container
query.  A raised click or wait is folded into `expanded_desc = raised`. -/
structure DescriptionPage where
  read_more_button : QueryOutcome
  expanded_desc : QueryOutcome
  default_desc : QueryOutcome
deriving DecidableEq

/-- `extract_description`: if the Read More button exists, click and
re-resolve the expanded container, else resolve the default container;
a missing container or empty text yields `""`; non-empty text is passed
through `format_description`; any raise is caught and yields `""`. -/
def extract_description (p : DescriptionPage) : List Char :=
  match p.read_more_button with
  | .raised => []
  | .found _ =>
    match p.expanded_desc with
    | .raised => []
    | .missing => []
    | .found t => if t.isEmpty then [] else format_description t
  | .missing =>
    match p.default_desc with
    | .raised => []
    | .missing => []
    | .found t => if t.isEmpty then [] else format_description t

/-- Outcome of `page.goto(...)` + the settle wait: completes or raises. -/
inductive NavOutcome where
  | ok
  | raised
deriving DecidableEq

/-- Behaviour of one product detail page as seen by
`ProductExtractor.extract_all_fields`: the navigation (`page.goto` +
settle wait) may raise; each field's selector chain has its own
outcomes. -/
structure ProductPage where
  goto : NavOutcome
  brand_chain : List QueryOutcome
  name_chain : List QueryOutcome
  packaging_q : QueryOutcome
  sku_chain : List QueryOutcome
  image_chain : List QueryOutcome
  desc : DescriptionPage
  price_chain : List QueryOutcome
deriving DecidableEq

/-- `ProductExtractor.extract_all_fields`: a navigation exception is
caught by the outer `try` and yields `ProductData(url=product_url)`;
otherwise a record is created with `url=product_url` and each field is
filled by its own (internally caught) extractor, then `category` is
set.  Field extractors cannot raise past their own `try`, so the outer
`except` is reachable only from navigation. -/
def extract_all_fields (p : ProductPage) (product_url category : List Char) :
    ProductData :=
  match p.goto with
  | .raised => { url := product_url }
  | .ok =>
    { url := product_url
      brand := resolve_text_chain p.brand_chain
      product_name := resolve_text_chain p.name_chain
      packaging := extract_packaging p.packaging_q
      sku := resolve_text_chain p.sku_chain
      image_url := resolve_attr_chain p.image_chain
      description := extract_description p.desc
      price := resolve_text_chain p.price_chain
      category := category }

/-! ## Category link collection
(src/scraper/extractors/category_extractor.py) -/

/-- Outcome of one `query_selector_all(selector)` in
`extract_product_links_from_current_page`: the query (or a later
`get_attribute` on its elements) raises — caught by the per-selector
`try` with `continue` — or yields a list of elements, each with an
optional `href`. -/
inductive LinkQueryOutcome where
  | raised
  | elems (hrefs : List (Option (List Char)))
deriving DecidableEq

/-- The href filter
`'/product/' in href or '/item/' in href or '/detail/' in href or
'/p/' in href or '/app/catalog' in href`. -/
def href_is_product (h : List Char) : Bool :=
  isSubstr "/product/".toList h || isSubstr "/item/".toList h ||
  isSubstr "/detail/".toList h || isSubstr "/p/".toList h ||
  isSubstr "/app/catalog".toList h

/-- `href.startswith('/')` relative-to-absolute normalization. -/
def normalize_href (h : List Char) : List Char :=
  match h with
  | '/' :: _ => "https://shop.sysco.com".toList ++ h
  | _ => h

/-- `set.add`: the page-local `page_products` set, modelled as a
duplicate-free list in first-insertion order. -/
def addUnique (acc : List (List Char)) (x : List Char) : List (List Char) :=
  if x ∈ acc then acc else acc ++ [x]

/-- The inner `for element in elements` loop: keep hrefs passing the
product filter, normalized, deduplicated into the accumulator. -/
def collect_from_elems (acc : List (List Char))
    (hrefs : List (Option (List Char))) : List (List Char) :=
  hrefs.foldl
    (fun a ho =>
      match ho with
      | none => a
      | some h => if href_is_product h then addUnique a (normalize_href h) else a)
    acc

/-- One iteration of the outer `for selector in product_selectors`
loop: a raised selector is skipped (`except: continue`), otherwise its
elements are merged. -/
def link_step (a : List (List Char)) (o : LinkQueryOutcome) : List (List Char) :=
  match o with
  | .raised => a
  | .elems hrefs => collect_from_elems a hrefs

/-- `extract_product_links_from_current_page`: the selector loop has NO
break — every selector in the list is consulted and its matches are
merged into the shared set. -/
def extract_product_links (outs : List LinkQueryOutcome) : List (List Char) :=
  outs.foldl link_step []

/-! ## Pagination loop (`CategoryExtractor.extract_all_product_urls`) -/

/-- Ghost page counter for the `while page_num <= max_pages` loop:
`next pageNum` tells whether `navigate_to_next_page` succeeded on that
page (a resolvable, enabled control that was clicked).  `fuel` is
`max_pages - page_num + 1`, the number of iterations the guard still
allows.  Each iteration visits one page and breaks when no next-page
control resolves. -/
def pages_visited_aux (next : Nat → Bool) (pageNum : Nat) : Nat → Nat
  | 0 => 0
  | fuel + 1 => if next pageNum then 1 + pages_visited_aux next (pageNum + 1) fuel else 1

/-- The URL accumulation of the same loop: `links pageNum` is what
`extract_product_links_from_current_page` returns on that page. -/
def crawl_collect_aux (next : Nat → Bool) (links : Nat → List (List Char))
    (pageNum : Nat) : Nat → List (List Char)
  | 0 => []
  | fuel + 1 =>
    links pageNum ++
      (if next pageNum then crawl_collect_aux next links (pageNum + 1) fuel else [])

/-- `max_pages = 10  # Limit to prevent infinite loops`. -/
def max_pages : Nat := 10

/-- Pages visited by `extract_all_product_urls` for a given next-page
behaviour (`page_num` starts at 1). -/
def pages_visited (next : Nat → Bool) : Nat :=
  pages_visited_aux next 1 max_pages

/-- First-occurrence deduplication, modelling `list(set(product_urls))`
(the set collapses duplicates; Python's set order is unspecified, and
no claim depends on the order). -/
def dedupList (l : List (List Char)) : List (List Char) :=
  l.foldl addUnique []

/-- `extract_all_product_urls`: union of all visited pages' links,
duplicates collapsed. -/
def extract_all_product_urls (next : Nat → Bool)
    (links : Nat → List (List Char)) : List (List Char) :=
  dedupList (crawl_collect_aux next links 1 max_pages)

/-! ## Session bootstrap (src/scraper/browser_manager.py,
src/scraper/main.py) -/

/-- `BrowserManager.navigate_to_sysco`: returns `False` when the root
navigation raises or when `_handle_guest_login` fails (no guest control
resolved); `True` only when both completed. -/
def navigate_to_sysco (goto_ok guest_ok : Bool) : Bool :=
  goto_ok && guest_ok

/-- `SyscoScraperOrchestrator._setup_sysco_session`: a failed
`navigate_to_sysco` returns `False`; a failed `handle_zip_code_modal`
only logs `"⚠️ ... continuing anyway..."` and the function still
returns `True`. -/
def setup_sysco_session (navigate_ok : Bool) (_zip_ok : Bool) : Bool :=
  if !navigate_ok then false
  else true

/-- What `run_scraper` does right after session setup. -/
inductive RunPhase where
  | aborted_session_setup
  | proceeded_to_collection
deriving DecidableEq

/-- `run_scraper` step 2: `if not await self._setup_sysco_session():
return False` — a failed setup aborts the run before URL collection. -/
def run_scraper_after_setup (navigate_ok zip_ok : Bool) : RunPhase :=
  if setup_sysco_session navigate_ok zip_ok then .proceeded_to_collection
  else .aborted_session_setup

/-! ## Concurrency orchestrator (src/scraper/main.py) -/

/-- Outcome of one `scrape_product` call as the orchestrator sees it:
a returned record or a raised exception. -/
inductive ScrapeOutcome where
  | ok (d : ProductData)
  | raised
deriving DecidableEq

/-- `_scrape_products` flattening: `{'url': url, 'category': category}`
pairs in map/list order. -/
def flatten_work_list (m : List (List Char × List (List Char))) :
    List (List Char × List Char) :=
  m.foldl (fun acc kv => acc ++ kv.2.map (fun u => (u, kv.1))) []

/-- `max_products = self.config.max_products or len(all_products_to_scrape)`
then `all_products_to_scrape[:max_products]` — Python's `or` replaces a
zero (falsy) limit with the full length. -/
def truncate_work_list (cfg : ScrapingConfig)
    (l : List (List Char × List Char)) : List (List Char × List Char) :=
  let maxP := if cfg.max_products = 0 then l.length else cfg.max_products
  l.take maxP

/-- The two dispatch branches of `_scrape_products`. -/
inductive DispatchMode where
  | async
  | sequential
deriving DecidableEq

/-- The branch condition of `_scrape_products`:
`if (self.config.enable_async_scraping and
len(products_to_process) <= self.config.async_batch_size)`. -/
def dispatch_mode (cfg : ScrapingConfig) (n : Nat) : DispatchMode :=
  if cfg.enable_async_scraping = true ∧ n ≤ cfg.async_batch_size then .async
  else .sequential

/-- Dispatch mode chosen for a whole run: flatten, truncate, apply the
branch condition to the resulting length. -/
def scrape_products_mode (cfg : ScrapingConfig)
    (m : List (List Char × List (List Char))) : DispatchMode :=
  dispatch_mode cfg (truncate_work_list cfg (flatten_work_list m)).length

/-- One iteration of `_scrape_products_sequential`: a raised
`scrape_product` is caught and skipped; a returned record is appended
to `self.products` only if `is_valid()`. -/
def seq_step (acc : List ProductData) (o : ScrapeOutcome) : List ProductData :=
  match o with
  | .ok d => if d.is_valid then acc ++ [d] else acc
  | .raised => acc

/-- `_scrape_products_sequential` over the whole work list. -/
def scrape_products_sequential (outcomes : List ScrapeOutcome) :
    List ProductData :=
  outcomes.foldl seq_step []

/-- `scrape_single_product` inside `_scrape_products_async`: its own
`try` converts a raise to `None`; an invalid record also becomes
`None`; only a valid record is returned. -/
def scrape_single_product (o : ScrapeOutcome) : Option ProductData :=
  match o with
  | .ok d => if d.is_valid then some d else none
  | .raised => none

/-- `_scrape_products_async` result processing, one result:
`if result and not isinstance(result, Exception): self.products.append(result)`.
A `ProductData` dataclass is always truthy, and `scrape_single_product`
never raises, so `asyncio.gather(..., return_exceptions=True)` yields
no exception entries: exactly the non-`None` results are appended. -/
def async_step (acc : List ProductData) (r : Option ProductData) :
    List ProductData :=
  match r with
  | some d => acc ++ [d]
  | none => acc

/-- `_scrape_products_async` over the whole work list. -/
def scrape_products_async (outcomes : List ScrapeOutcome) : List ProductData :=
  (outcomes.map scrape_single_product).foldl async_step []

/-! ## CSV export (src/scraper/csv_exporter.py) -/

/-- `CSVExporter.fieldnames`: the fixed column order. -/
def csv_fieldnames : List (List Char) :=
  ["brand", "product_name", "packaging", "sku",
   "image_url", "description", "price", "category", "url"].map String.toList

/-- `CSVExporter.export_products`: `None` input list → failure; filter
to `is_valid()` records; empty after filtering → failure; otherwise the
filtered records are written, one row each, and the call succeeds.
`none` models the `False` return (no data row written). -/
def export_products (products : List ProductData) : Option (List ProductData) :=
  if products.isEmpty then none
  else if (products.filter (fun p => p.is_valid)).isEmpty then none
  else some (products.filter (fun p => p.is_valid))

/-- The rows handed to `csv.DictWriter.writerows`, in order. -/
def export_rows (products : List ProductData) :
    Option (List (List (List Char × List Char))) :=
  (export_products products).map (List.map ProductData.to_dict)

/-! ## Helper lemmas -/

theorem rfindDot_lt_length {s : List Char} {i : Nat} (h : rfindDot s = some i) :
    i < s.length := by
  induction s generalizing i with
  | nil => simp [rfindDot] at h
  | cons c rest ih =>
    simp only [rfindDot] at h
    cases hr : rfindDot rest with
    | some j =>
      rw [hr] at h
      simp only [Option.some.injEq] at h
      subst h
      exact Nat.succ_lt_succ (ih hr)
    | none =>
      rw [hr] at h
      by_cases hc : c = '.'
      · rw [if_pos hc] at h
        simp only [Option.some.injEq] at h
        simp [List.length_cons]
        omega
      · rw [if_neg hc] at h
        cases h

theorem pyRStrip_length_le (s : List Char) : (pyRStrip s).length ≤ s.length := by
  simp only [pyRStrip, List.length_reverse]
  exact (List.dropWhile_suffix _).sublist.length_le.trans
    (Nat.le_of_eq (List.length_reverse s))

/-! ## Claims -/

/-- C5: for every section content `t` and maximum length `L`, the
truncated output of `_limit_section_length` has length at most
`L + 3` (`3` = length of the ellipsis marker `'...'`); content that
already fits (`t.length ≤ L`) is returned unchanged; hence re-limiting
an already-fitting result with the same `L` is the identity. -/
theorem C5_truncation_law :
    (∀ (t : List Char) (L : Nat),
        (limit_section_length t L).length ≤ L + 3) ∧
    (∀ (t : List Char) (L : Nat), t.length ≤ L →
        limit_section_length t L = t) ∧
    (∀ (t : List Char) (L : Nat),
        (limit_section_length t L).length ≤ L →
        limit_section_length (limit_section_length t L) L =
          limit_section_length t L) := by
  have hfit : ∀ (t : List Char) (L : Nat), t.length ≤ L →
      limit_section_length t L = t := by
    intro t L h
    unfold limit_section_length
    rw [if_pos h]
  refine ⟨?_, hfit, fun t L h => hfit _ L h⟩
  intro t L
  have hlen : (t.take L).length ≤ L := by
    simp [List.length_take]
  have hrstrip : (pyRStrip (t.take L) ++ ['.', '.', '.']).length ≤ L + 3 := by
    have h1 := pyRStrip_length_le (t.take L)
    simp only [List.length_append, List.length_cons, List.length_nil]
    omega
  unfold limit_section_length
  split
  · rename_i h
    omega
  · rename_i h
    split
    · rename_i lastPeriod hr
      have hlp : lastPeriod < L := by
        have h1 := rfindDot_lt_length hr
        omega
      split
      · have h2 : (t.take (lastPeriod + 1)).length ≤ lastPeriod + 1 := by
          simp [List.length_take]
        omega
      · exact hrstrip
    · exact hrstrip

/-- C5 witness: a fitting input is returned unchanged, and re-limiting
it is the identity, at a concrete instance. -/
theorem C5_truncation_law_witness :
    limit_section_length "abc".toList 5 = "abc".toList ∧
    limit_section_length (limit_section_length "abc".toList 5) 5 =
      limit_section_length "abc".toList 5 :=
  ⟨C5_truncation_law.2.1 _ 5 (by decide), C5_truncation_law.2.2 _ 5 (by decide)⟩

/-- C6: `clean_price` returns the first currency-prefixed numeric token
when the price regex matches the cleaned text, and otherwise returns
the cleaned whole string unchanged; concretely,
`"  $1,234.56 each  "` yields `"$1,234.56"` and `"Call for price"`
yields `"Call for price"`. -/
theorem C6_price_cleaning :
    (∀ s : List Char, searchPriceToken (collapseWS (pyStrip s)) = none →
        clean_price s = collapseWS (pyStrip s)) ∧
    (∀ (s tok : List Char),
        searchPriceToken (collapseWS (pyStrip s)) = some tok →
        clean_price s = tok) ∧
    clean_price "  $1,234.56 each  ".toList = "$1,234.56".toList ∧
    clean_price "Call for price".toList = "Call for price".toList := by
  refine ⟨?_, ?_, by decide, by decide⟩
  · intro s h
    unfold clean_price
    split
    · rename_i hs
      cases s with
      | nil => decide
      | cons c cs => simp at hs
    · simp only [h]
  · intro s tok h
    unfold clean_price
    split
    · rename_i hs
      cases s with
      | nil => simp [pyStrip, pyLStrip, pyRStrip, collapseWS, collapseWSAux,
          searchPriceToken] at h
      | cons c cs => simp at hs
    · simp only [h]

/-- C6 witness: both hypothesis-bearing clauses applied at the spec's
two scenario inputs. -/
theorem C6_price_cleaning_witness :
    clean_price "Call for price".toList =
      collapseWS (pyStrip "Call for price".toList) ∧
    clean_price "  $1,234.56 each  ".toList = "$1,234.56".toList :=
  ⟨C6_price_cleaning.1 _ (by decide), C6_price_cleaning.2.1 _ _ (by decide)⟩

theorem pages_visited_aux_le (next : Nat → Bool) (p fuel : Nat) :
    pages_visited_aux next p fuel ≤ fuel := by
  induction fuel generalizing p with
  | zero => simp [pages_visited_aux]
  | succ f ih =>
    simp only [pages_visited_aux]
    split
    · have := ih (p + 1)
      omega
    · omega

/-- C8: the category crawl visits at most `max_pages` (= 10) pages for
every next-page behaviour, and exactly `max_pages` pages when the
next-page control is always resolvable and enabled. -/
theorem C8_pagination_bounded :
    (∀ next : Nat → Bool, pages_visited next ≤ max_pages) ∧
    pages_visited (fun _ => true) = max_pages :=
  ⟨fun next => pages_visited_aux_le next 1 max_pages, by decide⟩

/-- C1 counterexample: with the source's default configuration
(`enable_async_scraping = False`, `async_batch_size = 3`,
`max_products = 10`) and a single-URL work list, the flattened
truncated work list has size 1 ≤ 3, yet `_scrape_products` dispatches
sequentially — the claimed pure threshold rule is violated whenever the
parallel-mode toggle is off. -/
theorem C1_counterexample :
    scrape_products_mode {}
        [("Produce".toList,
          ["https://shop.sysco.com/app/product-details/1".toList])] =
      DispatchMode.sequential ∧
    (truncate_work_list {}
        (flatten_work_list
          [("Produce".toList,
            ["https://shop.sysco.com/app/product-details/1".toList])])).length ≤
      ({} : ScrapingConfig).async_batch_size := by
  decide

/-- C1 (amended): dispatch is bounded-parallel exactly when the
parallel-mode toggle `enable_async_scraping` is on AND the flattened,
truncated work-list size is at most `async_batch_size`; in every other
case — including a small work list with the toggle off — dispatch is
sequential. -/
theorem C1_dispatch_threshold (cfg : ScrapingConfig)
    (m : List (List Char × List (List Char))) :
    scrape_products_mode cfg m = DispatchMode.async ↔
      cfg.enable_async_scraping = true ∧
      (truncate_work_list cfg (flatten_work_list m)).length ≤
        cfg.async_batch_size := by
  unfold scrape_products_mode dispatch_mode
  split
  · rename_i h
    simpa using h
  · rename_i h
    constructor
    · intro hc
      cases hc
    · intro hc
      exact absurd hc h

/-- C2 counterexample: when the guest-entry step never completes
(`_handle_guest_login` returns `False`) while the location qualifier
would succeed, `_setup_sysco_session` returns `False` and `run_scraper`
aborts before URL collection — the run IS aborted, contradicting the
claim that session-setup failure is never fatal. -/
theorem C2_counterexample :
    run_scraper_after_setup (navigate_to_sysco true false) true =
      RunPhase.aborted_session_setup := by
  decide

/-- C2 (amended): only the location-qualifier (zip-code modal) failure
is non-fatal — it is logged as a warning and the orchestrator proceeds
to collection in a degraded state; if the guest-entry navigation step
never completes, session setup reports failure and the run aborts
before category crawling. -/
theorem C2_session_failure_handling (goto_ok guest_ok zip_ok : Bool) :
    run_scraper_after_setup (navigate_to_sysco goto_ok guest_ok) zip_ok =
      (if goto_ok && guest_ok then RunPhase.proceeded_to_collection
       else RunPhase.aborted_session_setup) := by
  cases goto_ok <;> cases guest_ok <;> rfl

theorem seq_fold_valid (outs : List ScrapeOutcome) :
    ∀ acc : List ProductData, (∀ q ∈ acc, q.is_valid = true) →
      ∀ p ∈ outs.foldl seq_step acc, p.is_valid = true := by
  induction outs with
  | nil =>
    intro acc hacc p hp
    exact hacc p hp
  | cons o rest ih =>
    intro acc hacc p hp
    simp only [List.foldl_cons] at hp
    cases o with
    | raised => exact ih acc hacc p hp
    | ok d =>
      by_cases hv : d.is_valid = true
      · refine ih _ ?_ p (by simpa [seq_step, hv] using hp)
        intro q hq
        rcases List.mem_append.mp hq with h | h
        · exact hacc q h
        · rw [List.mem_singleton.mp h]
          exact hv
      · exact ih acc hacc p (by simpa [seq_step, hv] using hp)

theorem async_fold_valid (rs : List (Option ProductData)) :
    ∀ acc : List ProductData, (∀ q ∈ acc, q.is_valid = true) →
      (∀ r ∈ rs, ∀ d, r = some d → d.is_valid = true) →
      ∀ p ∈ rs.foldl async_step acc, p.is_valid = true := by
  induction rs with
  | nil =>
    intro acc hacc _ p hp
    exact hacc p hp
  | cons r rest ih =>
    intro acc hacc hrs p hp
    simp only [List.foldl_cons] at hp
    cases r with
    | none =>
      exact ih acc hacc (fun r hr => hrs r (List.mem_cons_of_mem _ hr)) p hp
    | some d =>
      refine ih _ ?_ (fun r hr => hrs r (List.mem_cons_of_mem _ hr)) p
        (by simpa [async_step] using hp)
      intro q hq
      rcases List.mem_append.mp hq with h | h
      · exact hacc q h
      · rw [List.mem_singleton.mp h]
        exact hrs (some d) (List.mem_cons_self _ _) d rfl

/-- C3: every record accepted into the orchestrator's result set — in
sequential and in bounded-parallel dispatch — satisfies the validity
invariant (non-empty `url` and at least one non-empty identifying field
among name/brand/SKU); an arbitrary record (hence every one of the 2^4
emptiness combinations of those four fields) is accepted exactly when
it satisfies the invariant; and every row handed to the CSV writer
comes from a record satisfying the invariant. -/
theorem C3_validity_invariant :
    (∀ (outs : List ScrapeOutcome) (p : ProductData),
        p ∈ scrape_products_sequential outs → p.is_valid = true) ∧
    (∀ (outs : List ScrapeOutcome) (p : ProductData),
        p ∈ scrape_products_async outs → p.is_valid = true) ∧
    (∀ p : ProductData,
        p ∈ scrape_products_sequential [ScrapeOutcome.ok p] ↔
          p.is_valid = true) ∧
    (∀ (products valid : List ProductData),
        export_products products = some valid →
          ∀ p ∈ valid, p.is_valid = true) ∧
    (∀ (products : List ProductData)
        (rows : List (List (List Char × List Char))),
        export_rows products = some rows →
          ∀ row ∈ rows, ∃ p : ProductData,
            p.is_valid = true ∧ row = p.to_dict) := by
  have hexport : ∀ (products valid : List ProductData),
      export_products products = some valid →
        ∀ p ∈ valid, p.is_valid = true := by
    intro products valid h p hp
    unfold export_products at h
    split at h
    · cases h
    · split at h
      · cases h
      · simp only [Option.some.injEq] at h
        subst h
        exact (List.mem_filter.mp hp).2
  refine ⟨?_, ?_, ?_, hexport, ?_⟩
  · intro outs p hp
    exact seq_fold_valid outs []
      (fun q hq => absurd hq (List.not_mem_nil q)) p hp
  · intro outs p hp
    refine async_fold_valid _ []
      (fun q hq => absurd hq (List.not_mem_nil q)) ?_ p hp
    intro r hr d hd
    rcases List.mem_map.mp hr with ⟨o, _, ho⟩
    subst ho
    cases o with
    | raised => cases hd
    | ok d2 =>
      simp only [scrape_single_product] at hd
      split at hd
      · rename_i hv
        injection hd with hd
        subst hd
        exact hv
      · cases hd
  · intro p
    constructor
    · intro hp
      exact seq_fold_valid [ScrapeOutcome.ok p] []
        (fun q hq => absurd hq (List.not_mem_nil q)) p hp
    · intro hv
      simp [scrape_products_sequential, seq_step, hv]
  · intro products rows h row hrow
    unfold export_rows at h
    cases he : export_products products with
    | none => rw [he] at h; cases h
    | some valid =>
      rw [he] at h
      rw [Option.map_some'] at h
      injection h with h
      subst h
      rcases List.mem_map.mp hrow with ⟨p, hpmem, hpd⟩
      exact ⟨p, hexport products valid he p hpmem, hpd.symm⟩

/-- C3 witness: a concrete valid record is accepted by sequential
dispatch and its acceptance is equivalent to its validity; a concrete
export call only hands out rows of valid records. -/
theorem C3_validity_invariant_witness :
    ProductData.is_valid
        { url := "https://shop.sysco.com/app/product-details/1".toList,
          sku := "4014544".toList } = true ∧
    (∃ p : ProductData, p.is_valid = true ∧
        ProductData.to_dict
            { url := "https://shop.sysco.com/app/product-details/1".toList,
              sku := "4014544".toList } = p.to_dict) := by
  refine ⟨?_, ?_⟩
  · exact C3_validity_invariant.1
      [ScrapeOutcome.ok
        { url := "https://shop.sysco.com/app/product-details/1".toList,
          sku := "4014544".toList }]
      { url := "https://shop.sysco.com/app/product-details/1".toList,
        sku := "4014544".toList } (by decide)
  · exact C3_validity_invariant.2.2.2.2
      [{ url := "https://shop.sysco.com/app/product-details/1".toList,
         sku := "4014544".toList }]
      [ProductData.to_dict
        { url := "https://shop.sysco.com/app/product-details/1".toList,
          sku := "4014544".toList }]
      (by decide)
      (ProductData.to_dict
        { url := "https://shop.sysco.com/app/product-details/1".toList,
          sku := "4014544".toList })
      (by decide)

/-- C4 counterexample: in the product-link collection chain, selector 0
yields a match with non-empty extractable content (`/product/a`, which
passes the href filter and appears in the result), yet selector 1 is
still consulted — its URL `/product/b` also appears in the result.  The
claimed short-circuit therefore fails for the link-collection chain. -/
theorem C4_counterexample :
    extract_product_links
        [LinkQueryOutcome.elems [some "/product/a".toList],
         LinkQueryOutcome.elems [some "/product/b".toList]] =
      ["https://shop.sysco.com/product/a".toList,
       "https://shop.sysco.com/product/b".toList] := by
  decide

/-- C4 (amended): per-field extraction chains short-circuit — once the
selector at position `k` yields a match with non-empty (post-strip)
text, at most `k + 1` selectors are ever consulted, so selector `k + 1`
and later are never reached.  The product-link collection chain does
NOT short-circuit: every selector in the chain is consulted, and a
selector appended to the chain always has its matches merged into the
result regardless of earlier successes. -/
theorem C4_short_circuit :
    (∀ (outs : List QueryOutcome) (k : Nat) (h : k < outs.length),
        query_success (outs.get ⟨k, h⟩) = true →
        consulted_count outs ≤ k + 1) ∧
    (∀ (outs : List LinkQueryOutcome) (hrefs : List (Option (List Char))),
        extract_product_links (outs ++ [LinkQueryOutcome.elems hrefs]) =
          collect_from_elems (extract_product_links outs) hrefs) := by
  constructor
  · intro outs
    induction outs with
    | nil =>
      intro k h
      simp at h
    | cons o rest ih =>
      intro k h hq
      cases k with
      | zero =>
        cases o with
        | raised => simp [query_success] at hq
        | missing => simp [query_success] at hq
        | found t =>
          simp only [List.get] at hq
          simp only [query_success, Bool.not_eq_true'] at hq
          simp [consulted_count, hq]
      | succ k2 =>
        have hk2 : k2 < rest.length := by
          simp [List.length_cons] at h
          omega
        have hrec := ih k2 hk2 hq
        cases o with
        | raised =>
          simp only [consulted_count]
          omega
        | missing =>
          simp only [consulted_count]
          omega
        | found t =>
          simp only [consulted_count]
          split
          · omega
          · omega
  · intro outs hrefs
    unfold extract_product_links
    rw [List.foldl_append]
    rfl

/-- C4 witness: a per-field chain whose second selector (k = 1)
succeeds with non-empty text consults at most 2 selectors, leaving the
third untouched. -/
theorem C4_short_circuit_witness :
    consulted_count
        [QueryOutcome.missing, QueryOutcome.found "Sysco".toList,
         QueryOutcome.found "Other".toList] ≤ 2 :=
  C4_short_circuit.1
    [QueryOutcome.missing, QueryOutcome.found "Sysco".toList,
     QueryOutcome.found "Other".toList]
    1 (by decide) (by decide)

theorem chain_raises_text_empty (outs : List QueryOutcome)
    (h : chain_raises outs = true) : resolve_text_chain outs = [] := by
  induction outs with
  | nil => cases h
  | cons o rest ih =>
    cases o with
    | raised => rfl
    | missing => exact ih h
    | found t =>
      simp only [chain_raises] at h
      simp only [resolve_text_chain]
      split
      · rename_i ht
        rw [if_pos ht] at h
        exact ih h
      · rename_i ht
        rw [if_neg ht] at h
        cases h

theorem chain_raises_attr_empty (outs : List QueryOutcome)
    (h : chain_raises outs = true) : resolve_attr_chain outs = [] := by
  induction outs with
  | nil => cases h
  | cons o rest ih =>
    cases o with
    | raised => rfl
    | missing => exact ih h
    | found t =>
      simp only [chain_raises] at h
      simp only [resolve_attr_chain]
      split
      · rename_i ht
        rw [if_pos ht] at h
        exact ih h
      · rename_i ht
        rw [if_neg ht] at h
        cases h

/-- C9: the field-extraction coordinator never lets an exception escape
its boundary — a raised navigation is caught and converted to a record
carrying only the url; a raised query inside a field's chain is caught
and converted to an empty field; and with a raised brand chain the
remaining fields are still extracted from their own chains. -/
theorem C9_extraction_error_containment :
    (∀ (p : ProductPage) (u c : List Char), p.goto = NavOutcome.raised →
        extract_all_fields p u c = { url := u }) ∧
    (∀ outs : List QueryOutcome, chain_raises outs = true →
        resolve_text_chain outs = []) ∧
    (∀ outs : List QueryOutcome, chain_raises outs = true →
        resolve_attr_chain outs = []) ∧
    (∀ (p : ProductPage) (u c : List Char), p.goto = NavOutcome.ok →
        chain_raises p.brand_chain = true →
        (extract_all_fields p u c).brand = [] ∧
        (extract_all_fields p u c).product_name =
          resolve_text_chain p.name_chain ∧
        (extract_all_fields p u c).description = extract_description p.desc ∧
        (extract_all_fields p u c).price =
          resolve_text_chain p.price_chain) := by
  refine ⟨?_, chain_raises_text_empty, chain_raises_attr_empty, ?_⟩
  · intro p u c h
    unfold extract_all_fields
    rw [h]
  · intro p u c hgoto hbrand
    unfold extract_all_fields
    rw [hgoto]
    exact ⟨chain_raises_text_empty _ hbrand, rfl, rfl, rfl⟩

/-- C9 witness: at a concrete page whose navigation raises, a record
with only the url is returned; at a concrete page whose brand chain
raises, the brand is empty while the name is still extracted. -/
theorem C9_extraction_error_containment_witness :
    extract_all_fields
        { goto := NavOutcome.raised, brand_chain := [], name_chain := [],
          packaging_q := QueryOutcome.missing, sku_chain := [],
          image_chain := [],
          desc := { read_more_button := QueryOutcome.missing,
                    expanded_desc := QueryOutcome.missing,
                    default_desc := QueryOutcome.missing },
          price_chain := [] }
        "https://shop.sysco.com/app/product-details/1".toList
        "Produce".toList =
      { url := "https://shop.sysco.com/app/product-details/1".toList } ∧
    resolve_text_chain [QueryOutcome.raised] = [] ∧
    resolve_attr_chain [QueryOutcome.raised] = [] ∧
    (extract_all_fields
        { goto := NavOutcome.ok,
          brand_chain := [QueryOutcome.raised],
          name_chain := [QueryOutcome.found "Chicken Breast".toList],
          packaging_q := QueryOutcome.missing, sku_chain := [],
          image_chain := [],
          desc := { read_more_button := QueryOutcome.missing,
                    expanded_desc := QueryOutcome.missing,
                    default_desc := QueryOutcome.missing },
          price_chain := [] }
        "https://shop.sysco.com/app/product-details/1".toList
        "Produce".toList).brand = [] :=
  ⟨C9_extraction_error_containment.1 _ _ _ rfl,
   C9_extraction_error_containment.2.1 _ rfl,
   C9_extraction_error_containment.2.2.1 _ rfl,
   (C9_extraction_error_containment.2.2.2
      { goto := NavOutcome.ok,
        brand_chain := [QueryOutcome.raised],
        name_chain := [QueryOutcome.found "Chicken Breast".toList],
        packaging_q := QueryOutcome.missing, sku_chain := [],
        image_chain := [],
        desc := { read_more_button := QueryOutcome.missing,
                  expanded_desc := QueryOutcome.missing,
                  default_desc := QueryOutcome.missing },
        price_chain := [] }
      "https://shop.sysco.com/app/product-details/1".toList
      "Produce".toList rfl rfl).1⟩

/-- C10: `extract_all_fields` always returns a record whose `url` field
equals the given `product_url`, on the success path and on the
exception path alike; on the exception path every other field of the
returned record is the empty string. -/
theorem C10_url_field_invariant :
    (∀ (p : ProductPage) (u c : List Char),
        (extract_all_fields p u c).url = u) ∧
    (∀ (p : ProductPage) (u c : List Char), p.goto = NavOutcome.raised →
        (extract_all_fields p u c).brand = [] ∧
        (extract_all_fields p u c).product_name = [] ∧
        (extract_all_fields p u c).packaging = [] ∧
        (extract_all_fields p u c).sku = [] ∧
        (extract_all_fields p u c).image_url = [] ∧
        (extract_all_fields p u c).description = [] ∧
        (extract_all_fields p u c).price = [] ∧
        (extract_all_fields p u c).category = []) := by
  constructor
  · intro p u c
    unfold extract_all_fields
    cases p.goto <;> rfl
  · intro p u c h
    unfold extract_all_fields
    rw [h]
    exact ⟨rfl, rfl, rfl, rfl, rfl, rfl, rfl, rfl⟩

/-- C10 witness: at a concrete page whose navigation raises, the
returned record keeps the url and every other field is empty. -/
theorem C10_url_field_invariant_witness :
    (extract_all_fields
        { goto := NavOutcome.raised, brand_chain := [], name_chain := [],
          packaging_q := QueryOutcome.missing, sku_chain := [],
          image_chain := [],
          desc := { read_more_button := QueryOutcome.missing,
                    expanded_desc := QueryOutcome.missing,
                    default_desc := QueryOutcome.missing },
          price_chain := [] }
        "https://shop.sysco.com/app/product-details/9".toList
        "Bakery".toList).url =
      "https://shop.sysco.com/app/product-details/9".toList ∧
    (extract_all_fields
        { goto := NavOutcome.raised, brand_chain := [], name_chain := [],
          packaging_q := QueryOutcome.missing, sku_chain := [],
          image_chain := [],
          desc := { read_more_button := QueryOutcome.missing,
                    expanded_desc := QueryOutcome.missing,
                    default_desc := QueryOutcome.missing },
          price_chain := [] }
        "https://shop.sysco.com/app/product-details/9".toList
        "Bakery".toList).category = [] :=
  ⟨C10_url_field_invariant.1 _ _ _,
   (C10_url_field_invariant.2 _ _ _ rfl).2.2.2.2.2.2.2⟩

theorem filterMap_if_eq {α β : Type} (l : List α) (P : α → Bool) (g : α → β) :
    (l.filterMap fun k => if P k then some (g k) else none) =
      (l.filter P).map g := by
  induction l with
  | nil => rfl
  | cons a as ih =>
    by_cases h : P a <;>
      simp [List.filterMap_cons, List.filter_cons, h, ih]

theorem formattedParts_eq (s : Sections) :
    formattedParts s =
      (sectionOrder.filter (section_nonempty s)).map (section_part s) :=
  filterMap_if_eq sectionOrder (section_nonempty s) (section_part s)

theorem format_sections_shape (s : Sections) :
    format_sections s = s.PRODUCT ∨
      ∃ keys : List SectionKey, keys ≠ [] ∧ keys.Sublist sectionOrder ∧
        (∀ k ∈ keys, section_nonempty s k = true) ∧
        format_sections s = joinParts (keys.map (section_part s)) := by
  cases hk : sectionOrder.filter (section_nonempty s) with
  | nil =>
    left
    unfold format_sections
    rw [formattedParts_eq, hk]
    rfl
  | cons k0 krest =>
    right
    refine ⟨k0 :: krest, by simp, hk ▸ List.filter_sublist _, ?_, ?_⟩
    · intro k hkmem
      rw [← hk] at hkmem
      exact (List.mem_filter.mp hkmem).2
    · unfold format_sections
      rw [formattedParts_eq, hk]
      simp only [List.map_cons, List.isEmpty_cons]
      rfl

/-- C7: description structuring classifies every sentence into exactly
one of the four buckets by case-insensitive keyword membership checked
in priority order cooking > specifications > features > product
(a sentence with both a cooking and a specification keyword goes to
cooking instructions); the non-empty buckets are emitted in the fixed
order PRODUCT, SPECIFICATIONS, FEATURES, COOKING INSTRUCTIONS as
`LABEL: content` segments joined by `" | "`; and for every input
(via `_format_sections` alone or the full `format_description`
pipeline) the output is the empty string, the unsegmented PRODUCT
text, or such a joined ordered subset of labeled segments — never
malformed. -/
theorem C7_description_structuring :
    (∀ sent : List Char,
        hasAnyKeyword cookingKeywords (toLowerStr sent) = true →
        classifySentence sent = SectionKey.COOKING_INSTRUCTIONS) ∧
    (∀ sent : List Char,
        hasAnyKeyword cookingKeywords (toLowerStr sent) = false →
        hasAnyKeyword specKeywords (toLowerStr sent) = true →
        classifySentence sent = SectionKey.SPECIFICATIONS) ∧
    (∀ sent : List Char,
        hasAnyKeyword cookingKeywords (toLowerStr sent) = false →
        hasAnyKeyword specKeywords (toLowerStr sent) = false →
        hasAnyKeyword featureKeywords (toLowerStr sent) = true →
        classifySentence sent = SectionKey.FEATURES) ∧
    (∀ sent : List Char,
        hasAnyKeyword cookingKeywords (toLowerStr sent) = false →
        hasAnyKeyword specKeywords (toLowerStr sent) = false →
        hasAnyKeyword featureKeywords (toLowerStr sent) = false →
        classifySentence sent = SectionKey.PRODUCT) ∧
    (∀ s : Sections, format_sections s = s.PRODUCT ∨
        ∃ keys : List SectionKey, keys ≠ [] ∧ keys.Sublist sectionOrder ∧
          (∀ k ∈ keys, section_nonempty s k = true) ∧
          format_sections s = joinParts (keys.map (section_part s))) ∧
    (∀ raw : List Char,
        format_description raw = [] ∨
        format_description raw =
          (organize_into_sections (clean_raw_text raw)).PRODUCT ∨
        ∃ keys : List SectionKey, keys ≠ [] ∧ keys.Sublist sectionOrder ∧
          (∀ k ∈ keys,
            section_nonempty (organize_into_sections (clean_raw_text raw)) k =
              true) ∧
          format_description raw =
            joinParts (keys.map
              (section_part (organize_into_sections (clean_raw_text raw))))) := by
  refine ⟨?_, ?_, ?_, ?_, format_sections_shape, ?_⟩
  · intro sent h
    simp [classifySentence, h]
  · intro sent h1 h2
    simp [classifySentence, h1, h2]
  · intro sent h1 h2 h3
    simp [classifySentence, h1, h2, h3]
  · intro sent h1 h2 h3
    simp [classifySentence, h1, h2, h3]
  · intro raw
    unfold format_description
    split
    · left
      rfl
    · rcases format_sections_shape (organize_into_sections (clean_raw_text raw))
        with h | ⟨keys, hne, hsub, hmem, heq⟩
      · right
        left
        exact h
      · right
        right
        exact ⟨keys, hne, hsub, hmem, heq⟩

/-- C7 witness: concrete sentences exercising each classification
clause, including a multi-keyword-overlap sentence containing both a
cooking keyword and a specification keyword, filed under cooking
instructions. -/
theorem C7_description_structuring_witness :
    classifySentence "Cook until the internal weight drops".toList =
      SectionKey.COOKING_INSTRUCTIONS ∧
    classifySentence "Ships three to a case".toList =
      SectionKey.SPECIFICATIONS ∧
    classifySentence "A premium product".toList = SectionKey.FEATURES ∧
    classifySentence "Delicious and wholesome".toList = SectionKey.PRODUCT :=
  ⟨C7_description_structuring.1 _ (by decide),
   C7_description_structuring.2.1 _ (by decide) (by decide),
   C7_description_structuring.2.2.1 _ (by decide) (by decide) (by decide),
   C7_description_structuring.2.2.2.1 _ (by decide) (by decide) (by decide)⟩

end Sysco
